import Mathlib

/-!
A shallow embedding of the task-queue / event-streaming pipeline of the
workflow execution core (`api/core/app/apps/base_app_queue_manager.py`,
`api/core/app/apps/message_based_app_queue_manager.py`,
`api/core/app/apps/workflow_app_runner.py`), together with the
graph-configuration helpers those files use.  Machine-level details that the
claims do not touch (redis byte decoding, wall-clock floats, thread
scheduling) are abstracted as documented on each definition; every
definition mirrors the control flow of the cited Python function.
-/

namespace Dify

/-- The `InvokeFrom` enum of `core/app/entities/app_invoke_entities.py`, with
the four variants appearing at the call sites inside `src`
(`SERVICE_API`, `WEB_APP`, `EXPLORE`, `DEBUGGER`). -/
inductive InvokeFrom where
  | serviceApi
  | webApp
  | explore
  | debugger
deriving DecidableEq, Repr

/-- The caller-identity role tag computed identically in
`AppQueueManager.__init__` (line 63) and `AppQueueManager.set_stop_flag`
(line 175): `"account" if invoke_from in {EXPLORE, DEBUGGER} else "end-user"`. -/
def userPfx (invoke_from : InvokeFrom) : String :=
  match invoke_from with
  | InvokeFrom.explore => "account"
  | InvokeFrom.debugger => "account"
  | _ => "end-user"

/-- A value held by the shared external key-value store (redis), together
with the TTL in seconds it was written with. -/
structure RVal where
  val : String
  ttl : Nat
deriving DecidableEq, Repr

/-- The shared external key-value store (`redis_client`), modelled as an
association list from keys to values; the newest write for a key shadows
older ones. -/
abbrev Store := List (String × RVal)

/-- Redis `get`. -/
def Store.get (s : Store) (k : String) : Option RVal :=
  (s.find? (fun p => p.1 == k)).map Prod.snd

/-- Redis `setex key ttl value`. -/
def Store.setex (s : Store) (k : String) (ttl : Nat) (v : String) : Store :=
  (k, { val := v, ttl := ttl }) :: s.eraseP (fun p => p.1 == k)

/-- `AppQueueManager._generate_task_belong_cache_key` (lines 196-207). -/
def generate_task_belong_cache_key (task_id : String) : String :=
  "generate_task_belong:" ++ task_id

/-- `AppQueueManager._generate_stopped_cache_key` (lines 209-220). -/
def generate_stopped_cache_key (task_id : String) : String :=
  "generate_task_stopped:" ++ task_id

/-- The externally visible effect of `AppQueueManager.__init__`
(lines 44-70): reject an empty `user_id` with `ValueError`, otherwise record
task ownership under the belong key, with a 1800 second TTL, as the string
`user_prefix + "-" + user_id`. -/
def initQueueManagerStore (s : Store) (task_id user_id : String)
    (invoke_from : InvokeFrom) : Except String Store :=
  if user_id = "" then Except.error ("user is required")
  else Except.ok (Store.setex s (generate_task_belong_cache_key task_id) 1800
    (userPfx invoke_from ++ "-" ++ user_id))

/-- `AppQueueManager.set_stop_flag` (lines 158-180): read the ownership
record; if absent, return; if it differs from the requester identity string,
return; otherwise write the stopped key with a 600 second TTL. -/
def set_stop_flag (s : Store) (task_id : String) (invoke_from : InvokeFrom)
    (user_id : String) : Store :=
  match Store.get s (generate_task_belong_cache_key task_id) with
  | none => s
  | some result =>
    if result.val ≠ userPfx invoke_from ++ "-" ++ user_id then s
    else Store.setex s (generate_stopped_cache_key task_id) 600 ("1")

/-- `AppQueueManager._is_stopped` (lines 182-194): the task is stopped when
the stopped key is present. -/
def is_stopped (s : Store) (task_id : String) : Bool :=
  (Store.get s (generate_stopped_cache_key task_id)).isSome

/-!
Python data values, as they appear in the output of `event.model_dump()`
that `AppQueueManager.publish` (line 138) hands to
`AppQueueManager._check_for_sqlalchemy_models` (lines 222-244).  The mutual
lists keep all recursion structural.  `model` stands for any object that is
a SQLAlchemy model or carries `_sa_instance_state`; `prim` stands for any
other non-container value.
-/

mutual
inductive PyData where
  | prim : PyData
  | model : PyData
  | dict : PyEntries → PyData
  | list : PyList → PyData
  | tuple : PyList → PyData
  | set : PyList → PyData

inductive PyEntries where
  | nil : PyEntries
  | cons : PyData → PyData → PyEntries → PyEntries

inductive PyList where
  | nil : PyList
  | cons : PyData → PyList → PyList
end

mutual
/-- `AppQueueManager._check_for_sqlalchemy_models` (lines 222-244): recurse
into dict values and list elements; on anything else, raise `TypeError`
exactly when the value is a SQLAlchemy model instance.  Returns `true` when
the Python function raises. -/
def checkRaises : PyData → Bool
  | PyData.prim => false
  | PyData.model => true
  | PyData.tuple _ => false
  | PyData.set _ => false
  | PyData.dict es => checkDictEntries es
  | PyData.list xs => checkListItems xs

/-- The `for key, value in data.items()` loop of the dict branch: only the
values are visited. -/
def checkDictEntries : PyEntries → Bool
  | PyEntries.nil => false
  | PyEntries.cons _ v rest => checkRaises v || checkDictEntries rest

/-- The `for item in data` loop of the list branch. -/
def checkListItems : PyList → Bool
  | PyList.nil => false
  | PyList.cons x rest => checkRaises x || checkListItems rest
end

mutual
/-- Whether a model instance occurs anywhere in the value, through every
container kind, dict keys included.  This is the "present anywhere" notion
of the claim, not a function of the source. -/
def containsModel : PyData → Bool
  | PyData.prim => false
  | PyData.model => true
  | PyData.dict es => entriesContain es
  | PyData.list xs => listContains xs
  | PyData.tuple xs => listContains xs
  | PyData.set xs => listContains xs

/-- Occurrence search through dict keys and values. -/
def entriesContain : PyEntries → Bool
  | PyEntries.nil => false
  | PyEntries.cons k v rest => containsModel k || containsModel v || entriesContain rest

/-- Occurrence search through list, tuple, and set elements. -/
def listContains : PyList → Bool
  | PyList.nil => false
  | PyList.cons x rest => containsModel x || listContains rest
end

mutual
/-- A model instance is reachable through dict values and list elements
only: the traversal contract the defensive check actually implements, stated
relationally. -/
inductive ModelReachableDL : PyData → Prop where
  | model : ModelReachableDL PyData.model
  | dict : {es : PyEntries} → EntriesReachDL es → ModelReachableDL (PyData.dict es)
  | list : {xs : PyList} → ListReachDL xs → ModelReachableDL (PyData.list xs)

inductive EntriesReachDL : PyEntries → Prop where
  | head : {k v : PyData} → {rest : PyEntries} → ModelReachableDL v →
      EntriesReachDL (PyEntries.cons k v rest)
  | tail : {k v : PyData} → {rest : PyEntries} → EntriesReachDL rest →
      EntriesReachDL (PyEntries.cons k v rest)

inductive ListReachDL : PyList → Prop where
  | head : {x : PyData} → {rest : PyList} → ModelReachableDL x →
      ListReachDL (PyList.cons x rest)
  | tail : {x : PyData} → {rest : PyList} → ListReachDL rest →
      ListReachDL (PyList.cons x rest)
end

/-- `AppQueueManager.publish` (lines 127-139) restricted to its queue effect:
the dumped event data is checked first; when the check raises, the
`TypeError` propagates before `_publish` runs, so nothing is enqueued;
otherwise `_publish` enqueues.  The boolean records whether `TypeError` was
raised. -/
def publishChecked (q : List PyData) (d : PyData) : List PyData × Bool :=
  if checkRaises d then (q, true) else (q ++ [d], false)

/-- The dumped event data used by the counterexample to claim C4: a list
whose only element is a tuple holding a model instance. -/
def modelInTuple : PyData :=
  PyData.list (PyList.cons (PyData.tuple (PyList.cons PyData.model PyList.nil)) PyList.nil)

/-- The dumped event data used by claim C10: a dict whose only key is a
model instance (the value is a plain value). -/
def modelAsDictKey : PyData :=
  PyData.dict (PyEntries.cons PyData.model PyData.prim PyEntries.nil)

/-- A dict whose only value is a model instance: data the check does
reject. -/
def modelAsDictValue : PyData :=
  PyData.dict (PyEntries.cons PyData.prim PyData.model PyEntries.nil)

/-!
The queue itself.  Events are the `AppQueueEvent` hierarchy of
`core/app/entities/queue_entities.py` abstracted to the variants the queue
manager inspects by `isinstance`; `other` stands for any further
non-terminal event (node events, text chunks, and so on).  A queue item is
`Option QEvent`: `none` is the `None` sentinel put by
`AppQueueManager.stop_listen` (lines 105-112); the per-message wrapper
fields of `MessageQueueMessage` (task id, message id, ...) are constants of
the manager and are dropped.
-/

/-- The reason tag of `QueueStopEvent.stopped_by`.  Modelled from the spec:
`queue_entities.py` is not under `src`; the only variant used at the call
sites in `src` is `USER_MANUAL`, and `otherReason` is a distinct placeholder
variant so that distinguishability of reason codes is expressible. -/
inductive StopBy where
  | userManual
  | otherReason
deriving DecidableEq, Repr

/-- Queue-level events. -/
inductive QEvent where
  | stop (stopped_by : StopBy)
  | ping
  | error
  | messageEnd
  | advancedChatMessageEnd
  | workflowStarted
  | workflowSucceeded
  | workflowFailed
  | other (tag : Nat)
deriving DecidableEq, Repr

/-- The `isinstance(event, QueueStopEvent | QueueErrorEvent |
QueueMessageEndEvent | QueueAdvancedChatMessageEndEvent)` test of
`MessageBasedAppQueueManager._publish` (lines 83-86): the event kinds that
make `_publish` call `stop_listen` and thereby close the queue. -/
def closesQueue : QEvent → Bool
  | QEvent.stop _ => true
  | QEvent.error => true
  | QEvent.messageEnd => true
  | QEvent.advancedChatMessageEnd => true
  | _ => false

/-- The terminal-event set named by claim C1: graph success, graph failure,
or a stop event.  Under the message-based manager the first two map to
`QueueWorkflowSucceededEvent` / `QueueWorkflowFailedEvent`. -/
def claimTerminal : QEvent → Bool
  | QEvent.workflowSucceeded => true
  | QEvent.workflowFailed => true
  | QEvent.stop _ => true
  | _ => false

/-- The `PublishFrom` enum (`base_app_queue_manager.py`, lines 21-30). -/
inductive PublishFrom where
  | applicationManager
  | taskPipeline
deriving DecidableEq, Repr

/-- Outcome of one `_publish` call: the queue contents afterwards, and
whether `GenerateTaskStoppedError` propagates to the caller. -/
structure PublishResult where
  queue : List (Option QEvent)
  raised : Bool
deriving DecidableEq, Repr

/-- `MessageBasedAppQueueManager._publish` (lines 61-91): put the message;
if the event closes the queue, `stop_listen` puts the `None` sentinel; only
then, if the origin is `APPLICATION_MANAGER` and the stop flag is set, raise
`GenerateTaskStoppedError`.  `stopped` is the value `self._is_stopped()`
reads from the shared store at that moment. -/
def mqPublish (q : List (Option QEvent)) (e : QEvent) (pub_from : PublishFrom)
    (stopped : Bool) : PublishResult :=
  let q1 := q ++ [some e]
  let q2 := if closesQueue e then q1 ++ [none] else q1
  { queue := q2, raised := pub_from == PublishFrom.applicationManager && stopped }

/-- The queue items a sequence of producer-side publishes appends. -/
def pubBlocks : List QEvent → List (Option QEvent)
  | [] => []
  | e :: es => (some e :: (if closesQueue e then [none] else [])) ++ pubBlocks es

/-- A burst of publishes from the engine side (origin
`APPLICATION_MANAGER`), folded over the queue; the raised exceptions do not
change the queue, so only the queue effect is kept. -/
def producerPublish (q : List (Option QEvent)) (es : List QEvent) : List (Option QEvent) :=
  es.foldl (fun acc e => (mqPublish acc e PublishFrom.applicationManager false).queue) q

/-- The consumer-loop state of `AppQueueManager.listen` (lines 72-103):
the queue contents, `time.time() - start_time` in whole seconds, and
`last_ping_time`. -/
structure ListenState where
  queue : List (Option QEvent)
  elapsed : Nat
  lastPing : Nat
deriving DecidableEq, Repr

/-- The `finally` block of `listen` (lines 92-103): if the elapsed time
reached `listen_timeout` or the stop flag is set, publish
`QueueStopEvent(stopped_by=StopBy.USER_MANUAL)` from `TASK_PIPELINE`; then,
if `elapsed // 10` exceeds `last_ping_time`, publish a ping and update
`last_ping_time`. -/
def listenFinally (listen_timeout : Nat) (stopped : Bool) (st : ListenState) : ListenState :=
  let q1 := if listen_timeout ≤ st.elapsed || stopped then
      (mqPublish st.queue (QEvent.stop StopBy.userManual) PublishFrom.taskPipeline stopped).queue
    else st.queue
  if st.lastPing < st.elapsed / 10 then
    { queue := (mqPublish q1 QEvent.ping PublishFrom.taskPipeline stopped).queue,
      elapsed := st.elapsed, lastPing := st.elapsed / 10 }
  else
    { queue := q1, elapsed := st.elapsed, lastPing := st.lastPing }

/-- What the `finally` block appends to the queue, as a function of the
trigger condition and the ping schedule. -/
def finallyAppend (listen_timeout : Nat) (stopped : Bool) (elapsed lastPing : Nat) :
    List (Option QEvent) :=
  (if listen_timeout ≤ elapsed || stopped then
      [some (QEvent.stop StopBy.userManual), none]
    else []) ++
  (if lastPing < elapsed / 10 then [some QEvent.ping] else [])

/-- The consumer loop of `AppQueueManager.listen` (lines 72-103), one
iteration per unit of fuel, returning the sequence of events yielded to the
consumer.  `incoming step` is the burst of events the producer thread
publishes just before iteration `step` polls the queue (the concurrent
interleaving is resolved at `get` boundaries).  A `get` on the empty queue
blocks for the full one-second timeout and advances the clock; a `get` on a
non-empty queue returns at once.  A `None` item breaks the loop (the
`finally` block still runs, but nothing further is yielded); running out of
fuel means the consumer is still parked, having yielded nothing more. -/
def listenRun (listen_timeout : Nat) (stopFlag : Nat → Bool)
    (incoming : Nat → List QEvent) : Nat → Nat → ListenState → List QEvent
  | 0, _, _ => []
  | fuel + 1, step, st =>
    match producerPublish st.queue (incoming step) with
    | [] =>
      listenRun listen_timeout stopFlag incoming fuel (step + 1)
        (listenFinally listen_timeout (stopFlag (st.elapsed + 1))
          { queue := [], elapsed := st.elapsed + 1, lastPing := st.lastPing })
    | none :: _ => []
    | some e :: rest =>
      e :: listenRun listen_timeout stopFlag incoming fuel (step + 1)
        (listenFinally listen_timeout (stopFlag st.elapsed)
          { queue := rest, elapsed := st.elapsed, lastPing := st.lastPing })

/-- Well-formedness of the queue contents: every item that closes the queue
is immediately followed by the `None` sentinel its `stop_listen` call put.
Every queue reachable through `_publish` satisfies it. -/
def queueWF : List (Option QEvent) → Bool
  | [] => true
  | some e :: rest =>
    (!closesQueue e || decide (rest.head? = some none)) && queueWF rest
  | none :: rest => queueWF rest

/-- No event may follow an event satisfying `isTerm` in the yielded
sequence (and hence at most one such event occurs). -/
def eventsStopAfter (isTerm : QEvent → Bool) : List QEvent → Bool
  | [] => true
  | e :: rest => if isTerm e then rest.isEmpty else eventsStopAfter isTerm rest

/-!
Graph construction (`WorkflowBasedAppRunner._init_graph`, lines 66-93, and
the filtering core of
`WorkflowBasedAppRunner._get_graph_and_variable_pool_of_single_iteration`,
lines 118-148).
-/

/-- The built graph.  Modelled from the spec: `Graph` and `Graph.init` live
in `core/workflow/graph_engine/entities/graph.py`, which is not under
`src`; per the spec a build resolves root node(s) and adjacency, so the
model keeps the resolved root id and leaves the rest opaque. -/
structure Graph where
  root_node_id : String
deriving DecidableEq, Repr

/-- The state of one key of a configuration mapping: missing, present but
not list-typed, or a list of entries. -/
inductive ConfigEntry (α : Type) where
  | absent : ConfigEntry α
  | notList : ConfigEntry α
  | entries : List α → ConfigEntry α
deriving DecidableEq, Repr

/-- A workflow graph configuration mapping, restricted to the two keys
`_init_graph` inspects. -/
structure GraphConfig (ν ε : Type) where
  nodes : ConfigEntry ν
  edges : ConfigEntry ε
deriving DecidableEq, Repr

/-- `WorkflowBasedAppRunner._init_graph` (lines 66-93).  `graphInit` stands
for `Graph.init`, which is not under `src`; modelled from the spec as a pure
constructor returning `none` exactly when no root node can be resolved for
the configuration (the `if not graph` test of line 90). -/
def initGraph {ν ε : Type} (graphInit : GraphConfig ν ε → Option Graph)
    (cfg : GraphConfig ν ε) : Except String Graph :=
  match cfg.nodes, cfg.edges with
  | ConfigEntry.absent, _ => Except.error ("nodes or edges not found in workflow graph")
  | _, ConfigEntry.absent => Except.error ("nodes or edges not found in workflow graph")
  | ConfigEntry.notList, _ => Except.error ("nodes in workflow graph must be a list")
  | _, ConfigEntry.notList => Except.error ("edges in workflow graph must be a list")
  | ConfigEntry.entries _, ConfigEntry.entries _ =>
    match graphInit cfg with
    | none => Except.error ("graph not found in workflow")
    | some g => Except.ok g

/-- One node entry of the configuration, restricted to the fields the
single-iteration filter reads: `node.get("id")` and
`node.get("data", {}).get("iteration_id", ...)`. -/
structure SubNodeConfig where
  id : Option String
  iteration_id : Option String
deriving DecidableEq, Repr

/-- One edge entry of the configuration, restricted to `edge.get("source")`
and `edge.get("target")`. -/
structure SubEdgeConfig where
  source : Option String
  target : Option String
deriving DecidableEq, Repr

/-- `node.get("data", {}).get("iteration_id", "")`: the declared iteration
membership with the empty-string default. -/
def iterIdOrEmpty (n : SubNodeConfig) : String :=
  Option.getD n.iteration_id ("")

/-- The node filter of lines 130-134: keep a node whose id equals `node_id`
or whose data declares `iteration_id` equal to `node_id`. -/
def iterationNodeKeep (node_id : String) (n : SubNodeConfig) : Bool :=
  n.id == some node_id || iterIdOrEmpty n == node_id

/-- `node_configs` (lines 130-136). -/
def filterIterationNodes (nodes : List SubNodeConfig) (node_id : String) :
    List SubNodeConfig :=
  nodes.filter (iterationNodeKeep node_id)

/-- `node_ids = [node.get("id") for node in node_configs]` (line 138). -/
def iterationNodeIds (nodes : List SubNodeConfig) (node_id : String) :
    List (Option String) :=
  (filterIterationNodes nodes node_id).map SubNodeConfig.id

/-- The edge filter of lines 141-146: keep an edge when its source is
`None` or among `node_ids`, and likewise its target. -/
def iterationEdgeKeep (ids : List (Option String)) (e : SubEdgeConfig) : Bool :=
  (e.source == none || ids.contains e.source) &&
  (e.target == none || ids.contains e.target)

/-- `edge_configs` (lines 141-148). -/
def filterIterationEdges (edges : List SubEdgeConfig) (ids : List (Option String)) :
    List SubEdgeConfig :=
  edges.filter (iterationEdgeKeep ids)

/-- The claim's notion for claim C7 of an endpoint surviving filtering:
the endpoint is one of the retained node ids (an absent endpoint is not
"among the retained node ids"). -/
def endpointAmongIds (x : Option String) (ids : List (Option String)) : Bool :=
  match x with
  | some s => ids.contains (some s)
  | none => false

/-!
The engine-to-queue event conversion
(`WorkflowBasedAppRunner._handle_event`, lines 196-381), restricted to the
node-scoped engine events claim C8 is about.  The engine-side structures are
from `core/workflow/graph_engine/entities/event.py` (under `src`); opaque
payloads (`node_data`, dict-valued inputs and outputs, retriever resources)
are abstracted to tags.  The queue-side structures are modelled from the
construction sites in `_handle_event`, since
`core/app/entities/queue_entities.py` is not under `src`: each carries
exactly the fields passed there.
-/

/-- The `NodeType` enum (`core/workflow/entities/node_entities.py`). -/
inductive NodeType where
  | start
  | endNode
  | answer
  | llm
  | knowledgeRetrieval
  | ifElse
  | code
  | templateTransform
  | questionClassifier
  | httpRequest
  | tool
  | variableAggregator
  | variableAssigner
  | loop
  | iteration
  | iterationStart
  | parameterExtractor
  | conversationVariableAssigner
deriving DecidableEq, Repr

/-- Dict-valued payloads: either the literal empty dict `{}` or some
non-empty payload, abstracted to a tag. -/
inductive PyDict where
  | empty
  | payload (tag : Nat)
deriving DecidableEq, Repr

/-- The fields of `NodeRunResult` read by `_handle_event`
(inputs, process_data, outputs, metadata, error). -/
structure NodeRunResultM where
  inputs : Option PyDict
  process_data : Option PyDict
  outputs : Option PyDict
  metadata : Option PyDict
  error : Option String
deriving DecidableEq, Repr

/-- The fields of `RouteNodeState` read by `_handle_event`.  Modelled from
the spec: `runtime_route_state.py` is not under `src`; per the spec a
`RouteNodeState` is the per-node-execution record carrying `start_at`, the
monotonic `run_index`, and the result.  `start_at` is a timestamp in
abstract units. -/
structure RouteNodeStateM where
  start_at : Nat
  index : Nat
  node_run_result : Option NodeRunResultM
deriving DecidableEq, Repr

/-- `BaseNodeEvent` (`event.py`, lines 68-112). -/
structure BaseNodeEventData where
  id : String
  node_id : String
  node_type : NodeType
  node_data : Nat
  route_node_state : RouteNodeStateM
  parallel_id : Option String
  parallel_start_node_id : Option String
  parent_parallel_id : Option String
  parent_parallel_start_node_id : Option String
  in_iteration_id : Option String
deriving DecidableEq, Repr

/-- The node-scoped engine events (`event.py`, lines 115-172). -/
inductive EngineNodeEvent where
  | runStarted (base : BaseNodeEventData) (predecessor_node_id : Option String)
  | runSucceeded (base : BaseNodeEventData)
  | runFailed (base : BaseNodeEventData) (error : String)
  | runStreamChunk (base : BaseNodeEventData) (chunk_content : String)
      (from_variable_selector : Option (List String))
  | runRetrieverResource (base : BaseNodeEventData) (retriever_resources : Nat)
      (context : String)
deriving DecidableEq, Repr

/-- `QueueNodeStartedEvent` as constructed at lines 212-228. -/
structure QueueNodeStartedEventM where
  node_execution_id : String
  node_id : String
  node_type : NodeType
  node_data : Nat
  parallel_id : Option String
  parallel_start_node_id : Option String
  parent_parallel_id : Option String
  parent_parallel_start_node_id : Option String
  start_at : Nat
  node_run_index : Nat
  predecessor_node_id : Option String
  in_iteration_id : Option String
deriving DecidableEq, Repr

/-- `QueueNodeSucceededEvent` as constructed at lines 229-255. -/
structure QueueNodeSucceededEventM where
  node_execution_id : String
  node_id : String
  node_type : NodeType
  node_data : Nat
  parallel_id : Option String
  parallel_start_node_id : Option String
  parent_parallel_id : Option String
  parent_parallel_start_node_id : Option String
  start_at : Nat
  inputs : Option PyDict
  process_data : Option PyDict
  outputs : Option PyDict
  execution_metadata : Option PyDict
  in_iteration_id : Option String
deriving DecidableEq, Repr

/-- `QueueNodeFailedEvent` as constructed at lines 256-282. -/
structure QueueNodeFailedEventM where
  node_execution_id : String
  node_id : String
  node_type : NodeType
  node_data : Nat
  parallel_id : Option String
  parallel_start_node_id : Option String
  parent_parallel_id : Option String
  parent_parallel_start_node_id : Option String
  start_at : Nat
  inputs : Option PyDict
  process_data : Option PyDict
  outputs : Option PyDict
  error : String
  in_iteration_id : Option String
deriving DecidableEq, Repr

/-- `QueueTextChunkEvent` as constructed at lines 283-290:
text, from_variable_selector, in_iteration_id, and nothing else. -/
structure QueueTextChunkEventM where
  text : String
  from_variable_selector : Option (List String)
  in_iteration_id : Option String
deriving DecidableEq, Repr

/-- `QueueRetrieverResourcesEvent` as constructed at lines 291-296:
retriever_resources and in_iteration_id, and nothing else. -/
structure QueueRetrieverResourcesEventM where
  retriever_resources : Nat
  in_iteration_id : Option String
deriving DecidableEq, Repr

/-- The queue events produced by the node-scoped branches of
`_handle_event`. -/
inductive AppQueueEventM where
  | nodeStarted (e : QueueNodeStartedEventM)
  | nodeSucceeded (e : QueueNodeSucceededEventM)
  | nodeFailed (e : QueueNodeFailedEventM)
  | textChunk (e : QueueTextChunkEventM)
  | retrieverResources (e : QueueRetrieverResourcesEventM)
deriving DecidableEq, Repr

/-- `x if event.route_node_state.node_run_result else {}` for each
dict-valued field (lines 241-252 and 268-276): when the result record is
absent the literal empty dict is passed, otherwise the field is passed
through even when it is `None`. -/
def resultField (f : NodeRunResultM → Option PyDict) (r : Option NodeRunResultM) :
    Option PyDict :=
  match r with
  | some rr => f rr
  | none => some PyDict.empty

/-- The error string of lines 277-279: the result's error when the result
exists and its error is truthy (non-`None`, non-empty), else
`"Unknown error"`. -/
def resultError (r : Option NodeRunResultM) : String :=
  match r with
  | some rr =>
    match rr.error with
    | some s => if s = "" then "Unknown error" else s
    | none => "Unknown error"
  | none => "Unknown error"

/-- The node-scoped branches of `WorkflowBasedAppRunner._handle_event`
(lines 212-296). -/
def handle_event : EngineNodeEvent → AppQueueEventM
  | EngineNodeEvent.runStarted base pred =>
    AppQueueEventM.nodeStarted
      { node_execution_id := base.id
        node_id := base.node_id
        node_type := base.node_type
        node_data := base.node_data
        parallel_id := base.parallel_id
        parallel_start_node_id := base.parallel_start_node_id
        parent_parallel_id := base.parent_parallel_id
        parent_parallel_start_node_id := base.parent_parallel_start_node_id
        start_at := base.route_node_state.start_at
        node_run_index := base.route_node_state.index
        predecessor_node_id := pred
        in_iteration_id := base.in_iteration_id }
  | EngineNodeEvent.runSucceeded base =>
    AppQueueEventM.nodeSucceeded
      { node_execution_id := base.id
        node_id := base.node_id
        node_type := base.node_type
        node_data := base.node_data
        parallel_id := base.parallel_id
        parallel_start_node_id := base.parallel_start_node_id
        parent_parallel_id := base.parent_parallel_id
        parent_parallel_start_node_id := base.parent_parallel_start_node_id
        start_at := base.route_node_state.start_at
        inputs := resultField NodeRunResultM.inputs base.route_node_state.node_run_result
        process_data := resultField NodeRunResultM.process_data base.route_node_state.node_run_result
        outputs := resultField NodeRunResultM.outputs base.route_node_state.node_run_result
        execution_metadata := resultField NodeRunResultM.metadata base.route_node_state.node_run_result
        in_iteration_id := base.in_iteration_id }
  | EngineNodeEvent.runFailed base _err =>
    AppQueueEventM.nodeFailed
      { node_execution_id := base.id
        node_id := base.node_id
        node_type := base.node_type
        node_data := base.node_data
        parallel_id := base.parallel_id
        parallel_start_node_id := base.parallel_start_node_id
        parent_parallel_id := base.parent_parallel_id
        parent_parallel_start_node_id := base.parent_parallel_start_node_id
        start_at := base.route_node_state.start_at
        inputs := resultField NodeRunResultM.inputs base.route_node_state.node_run_result
        process_data := resultField NodeRunResultM.process_data base.route_node_state.node_run_result
        outputs := resultField NodeRunResultM.outputs base.route_node_state.node_run_result
        error := resultError base.route_node_state.node_run_result
        in_iteration_id := base.in_iteration_id }
  | EngineNodeEvent.runStreamChunk base chunk sel =>
    AppQueueEventM.textChunk
      { text := chunk
        from_variable_selector := sel
        in_iteration_id := base.in_iteration_id }
  | EngineNodeEvent.runRetrieverResource base res _ctx =>
    AppQueueEventM.retrieverResources
      { retriever_resources := res
        in_iteration_id := base.in_iteration_id }

/-- A concrete node-scoped engine event base, used by the counterexample to
claim C8. -/
def baseEventA : BaseNodeEventData :=
  { id := "exec-1"
    node_id := "n1"
    node_type := NodeType.llm
    node_data := 0
    route_node_state := { start_at := 5, index := 1, node_run_result := none }
    parallel_id := none
    parallel_start_node_id := none
    parent_parallel_id := none
    parent_parallel_start_node_id := none
    in_iteration_id := none }

/-- A second base differing from `baseEventA` in `id`, `node_id`,
`node_type` and `start_at`. -/
def baseEventB : BaseNodeEventData :=
  { id := "exec-2"
    node_id := "n2"
    node_type := NodeType.code
    node_data := 0
    route_node_state := { start_at := 9, index := 4, node_run_result := none }
    parallel_id := none
    parallel_start_node_id := none
    parent_parallel_id := none
    parent_parallel_start_node_id := none
    in_iteration_id := none }

/-!  Theorems.  -/

theorem store_get_setex_same (s : Store) (k : String) (ttl : Nat) (v : String) :
    Store.get (Store.setex s k ttl v) k = some { val := v, ttl := ttl } := by
  simp [Store.get, Store.setex, List.find?]

theorem set_stop_flag_of_get_some (s : Store) (t : String) (inv : InvokeFrom)
    (uid : String) (r : RVal)
    (h : Store.get s (generate_task_belong_cache_key t) = some r) :
    set_stop_flag s t inv uid =
      if r.val = userPfx inv ++ "-" ++ uid
      then Store.setex s (generate_stopped_cache_key t) 600 ("1") else s := by
  unfold set_stop_flag
  rw [h]
  by_cases hv : r.val = userPfx inv ++ "-" ++ uid <;> simp [hv]

theorem set_stop_flag_of_get_none (s : Store) (t : String) (inv : InvokeFrom)
    (uid : String) (h : Store.get s (generate_task_belong_cache_key t) = none) :
    set_stop_flag s t inv uid = s := by
  unfold set_stop_flag
  rw [h]

/-- Claim C3: `set_stop_flag` writes the stopped flag, with a 600 second
TTL, exactly when a task-ownership record exists for the task and equals
the requester identity string derived the same way as at construction
(`userPfx` joined with the user id); in every other case, ownership record
absent included, it returns the store unchanged without raising. -/
theorem C3_set_stop_flag_guarded (s0 s s2 : Store) (task_id user_id uid2 : String)
    (inv inv2 : InvokeFrom)
    (hinit : initQueueManagerStore s0 task_id user_id inv = Except.ok s) :
    (set_stop_flag s task_id inv2 uid2 =
      if userPfx inv2 ++ "-" ++ uid2 = userPfx inv ++ "-" ++ user_id
      then Store.setex s (generate_stopped_cache_key task_id) 600 ("1")
      else s) ∧
    (Store.get s2 (generate_task_belong_cache_key task_id) = none →
      set_stop_flag s2 task_id inv2 uid2 = s2) := by
  constructor
  · have hs : s = Store.setex s0 (generate_task_belong_cache_key task_id) 1800
        (userPfx inv ++ "-" ++ user_id) := by
      by_cases h : user_id = "" <;> simp [initQueueManagerStore, h] at hinit
      exact hinit.symm
    rw [hs, set_stop_flag_of_get_some _ _ _ _ _ (store_get_setex_same _ _ _ _)]
    by_cases h2 : userPfx inv2 ++ "-" ++ uid2 = userPfx inv ++ "-" ++ user_id
    · rw [if_pos h2.symm, if_pos h2]
    · rw [if_neg (fun he => h2 he.symm), if_neg h2]
  · exact set_stop_flag_of_get_none s2 task_id inv2 uid2

/-- Witness for claim C3 at a concrete store: the owner's identity stops
the task; on an empty store the call is a no-op. -/
theorem C3_witness :
    set_stop_flag
        (Store.setex [] (generate_task_belong_cache_key ("t")) 1800
          (userPfx InvokeFrom.webApp ++ "-" ++ "u"))
        ("t") InvokeFrom.webApp ("u") =
      Store.setex
        (Store.setex [] (generate_task_belong_cache_key ("t")) 1800
          (userPfx InvokeFrom.webApp ++ "-" ++ "u"))
        (generate_stopped_cache_key ("t")) 600 ("1") ∧
    set_stop_flag [] ("t") InvokeFrom.webApp ("u") = [] := by
  have h := C3_set_stop_flag_guarded []
    (Store.setex [] (generate_task_belong_cache_key ("t")) 1800
      (userPfx InvokeFrom.webApp ++ "-" ++ "u")) []
    ("t") ("u") ("u") InvokeFrom.webApp InvokeFrom.webApp rfl
  refine ⟨?_, h.2 (by decide)⟩
  rw [h.1]
  decide

/-- Counterexample to claim C2 as stated: with the stopped key present in
the shared store, a publish whose origin is `TASK_PIPELINE` does not raise
`GenerateTaskStoppedError`. -/
theorem C2_counterexample :
    is_stopped [(generate_stopped_cache_key ("t1"), { val := "1", ttl := 600 })] ("t1")
      = true ∧
    (mqPublish [] QEvent.ping PublishFrom.taskPipeline
      (is_stopped [(generate_stopped_cache_key ("t1"), { val := "1", ttl := 600 })]
        ("t1"))).raised = false := by
  decide

/-- Claim C2 as amended: `_publish` raises `GenerateTaskStoppedError` if
and only if the origin is `APPLICATION_MANAGER` and the task's stopped key
is present in the shared store. -/
theorem C2_publish_raises_iff (q : List (Option QEvent)) (e : QEvent)
    (pub_from : PublishFrom) (s : Store) (task_id : String) :
    (mqPublish q e pub_from (is_stopped s task_id)).raised = true ↔
      (pub_from = PublishFrom.applicationManager ∧ is_stopped s task_id = true) := by
  cases pub_from <;> simp [mqPublish]

/-- Claim C9: when `_publish` raises `GenerateTaskStoppedError`, the event
message was already enqueued, with the queue-closing sentinel appended for
terminal event kinds, before the exception propagates; and the consumer
still observes the event (on a fresh queue it is the next event `listen`
yields). -/
theorem C9_enqueued_despite_raise (q : List (Option QEvent)) (e : QEvent) (stopped : Bool)
    (h : (mqPublish q e PublishFrom.applicationManager stopped).raised = true) :
    (mqPublish q e PublishFrom.applicationManager stopped).queue =
      q ++ some e :: (if closesQueue e then [none] else []) ∧
    (listenRun 1000 (fun _ => true) (fun _ => []) 1 0
      { queue := (mqPublish [] e PublishFrom.applicationManager stopped).queue,
        elapsed := 0, lastPing := 0 }).head? = some e := by
  constructor
  · cases hc : closesQueue e <;> simp [mqPublish, hc]
  · cases hc : closesQueue e <;>
      simp [mqPublish, hc, listenRun, producerPublish]

/-- Witness for claim C9: a ping published from the application manager
while stopped is enqueued and observed even though the publish raised. -/
theorem C9_witness :
    (mqPublish [] QEvent.ping PublishFrom.applicationManager true).queue
      = [some QEvent.ping] ∧
    (listenRun 1000 (fun _ => true) (fun _ => []) 1 0
      { queue := (mqPublish [] QEvent.ping PublishFrom.applicationManager true).queue,
        elapsed := 0, lastPing := 0 }).head? = some QEvent.ping := by
  have h := C9_enqueued_despite_raise [] QEvent.ping true (by decide)
  refine ⟨?_, h.2⟩
  rw [h.1]
  decide

/-- Counterexample to claim C4 as stated: dumped event data holding a model
instance inside a tuple contains a model, yet `publish` does not raise and
the event is enqueued. -/
theorem C4_counterexample :
    containsModel modelInTuple = true ∧
    publishChecked [] modelInTuple = ([modelInTuple], false) := by
  constructor
  · rfl
  · rfl

mutual
theorem checkRaises_iff : (d : PyData) → (checkRaises d = true ↔ ModelReachableDL d)
  | PyData.prim => by
    simp only [checkRaises]
    exact iff_of_false (by simp) (fun h => nomatch h)
  | PyData.model => iff_of_true rfl ModelReachableDL.model
  | PyData.tuple xs => by
    simp only [checkRaises]
    exact iff_of_false (by simp) (fun h => nomatch h)
  | PyData.set xs => by
    simp only [checkRaises]
    exact iff_of_false (by simp) (fun h => nomatch h)
  | PyData.dict es => by
    simp only [checkRaises]
    rw [checkDictEntries_iff es]
    constructor
    · exact fun h => ModelReachableDL.dict h
    · intro h
      cases h with
      | dict h2 => exact h2
  | PyData.list xs => by
    simp only [checkRaises]
    rw [checkListItems_iff xs]
    constructor
    · exact fun h => ModelReachableDL.list h
    · intro h
      cases h with
      | list h2 => exact h2

theorem checkDictEntries_iff : (es : PyEntries) → (checkDictEntries es = true ↔ EntriesReachDL es)
  | PyEntries.nil => by
    simp only [checkDictEntries]
    exact iff_of_false (by simp) (fun h => nomatch h)
  | PyEntries.cons k v rest => by
    simp only [checkDictEntries, Bool.or_eq_true]
    rw [checkRaises_iff v, checkDictEntries_iff rest]
    constructor
    · rintro (h | h)
      · exact EntriesReachDL.head h
      · exact EntriesReachDL.tail h
    · intro h
      cases h with
      | head h2 => exact Or.inl h2
      | tail h2 => exact Or.inr h2

theorem checkListItems_iff : (xs : PyList) → (checkListItems xs = true ↔ ListReachDL xs)
  | PyList.nil => by
    simp only [checkListItems]
    exact iff_of_false (by simp) (fun h => nomatch h)
  | PyList.cons x rest => by
    simp only [checkListItems, Bool.or_eq_true]
    rw [checkRaises_iff x, checkListItems_iff rest]
    constructor
    · rintro (h | h)
      · exact ListReachDL.head h
      · exact ListReachDL.tail h
    · intro h
      cases h with
      | head h2 => exact Or.inl h2
      | tail h2 => exact Or.inr h2
end

/-- Claim C4 as amended: `publish` raises the resource-safety `TypeError`
exactly when a model instance is reachable from the dumped data through
dict values and list elements; when it raises nothing is enqueued, and
otherwise the event is enqueued. -/
theorem C4_publish_raises_iff_reachable (q : List PyData) (d : PyData) :
    (checkRaises d = true ↔ ModelReachableDL d) ∧
    (ModelReachableDL d → publishChecked q d = (q, true)) ∧
    (¬ ModelReachableDL d → publishChecked q d = (q ++ [d], false)) := by
  refine ⟨checkRaises_iff d, ?_, ?_⟩
  · intro h
    have hc : checkRaises d = true := (checkRaises_iff d).mpr h
    simp [publishChecked, hc]
  · intro h
    have hc : checkRaises d = false := by
      cases hc2 : checkRaises d
      · rfl
      · exact absurd ((checkRaises_iff d).mp hc2) h
    simp [publishChecked, hc]

/-- Witness for claim C4: a model in a dict value is rejected with nothing
enqueued; plain data is enqueued. -/
theorem C4_witness :
    publishChecked [] modelAsDictValue = ([], true) ∧
    publishChecked [] PyData.prim = ([PyData.prim], false) := by
  have h1 := (C4_publish_raises_iff_reachable [] modelAsDictValue).2.1
    (ModelReachableDL.dict (EntriesReachDL.head ModelReachableDL.model))
  have h2 := (C4_publish_raises_iff_reachable [] PyData.prim).2.2 (fun h => nomatch h)
  exact ⟨h1, h2⟩

/-- Claim C10: the resource-safety check is not exhaustive: data whose only
model instance sits in a container the check does not traverse (here: a
dict key) is published without raising and is enqueued. -/
theorem C10_check_not_exhaustive :
    ∃ d : PyData, containsModel d = true ∧ checkRaises d = false ∧
      publishChecked [] d = ([d], false) :=
  ⟨modelAsDictKey, rfl, rfl, rfl⟩

/-- Claim C6: graph construction succeeds and returns the built graph
exactly when both `nodes` and `edges` are present list-typed entries and a
root can be resolved (`Graph.init` returns a graph); in every other case it
fails with the corresponding config `ValueError`.  The construction is a
pure function of the configuration. -/
theorem C6_init_graph_ok_iff {ν ε : Type} (graphInit : GraphConfig ν ε → Option Graph)
    (cfg : GraphConfig ν ε) (g : Graph) :
    initGraph graphInit cfg = Except.ok g ↔
      ((∃ ns, cfg.nodes = ConfigEntry.entries ns) ∧
       (∃ es, cfg.edges = ConfigEntry.entries es) ∧
       graphInit cfg = some g) := by
  obtain ⟨cn, ce⟩ := cfg
  cases cn <;> cases ce <;> simp [initGraph]
  case entries.entries ns es =>
    cases h : graphInit { nodes := ConfigEntry.entries ns, edges := ConfigEntry.entries es } <;>
      simp [h]

/-- Counterexample to claim C7 as stated: an edge whose `source` is absent
is retained by the filter even though its source endpoint is not among the
retained node ids. -/
theorem C7_counterexample :
    filterIterationEdges [{ source := none, target := some ("it") }]
        (iterationNodeIds [{ id := some ("it"), iteration_id := none }] ("it")) =
      [{ source := none, target := some ("it") }] ∧
    endpointAmongIds none
        (iterationNodeIds [{ id := some ("it"), iteration_id := none }] ("it")) = false := by
  decide

/-- Claim C7 as amended: the restricted subgraph configuration retains
exactly the nodes whose id equals `node_id` or whose declared iteration
membership equals `node_id`, and exactly the edges each of whose endpoints
is either absent or among the retained node ids. -/
theorem C7_subgraph_retention (nodes : List SubNodeConfig) (edges : List SubEdgeConfig)
    (node_id : String) :
    (∀ n, n ∈ filterIterationNodes nodes node_id ↔
      (n ∈ nodes ∧ (n.id = some node_id ∨ iterIdOrEmpty n = node_id))) ∧
    (∀ e, e ∈ filterIterationEdges edges (iterationNodeIds nodes node_id) ↔
      (e ∈ edges ∧
        (e.source = none ∨ e.source ∈ iterationNodeIds nodes node_id) ∧
        (e.target = none ∨ e.target ∈ iterationNodeIds nodes node_id))) := by
  constructor
  · intro n
    simp [filterIterationNodes, iterationNodeKeep, List.mem_filter]
  · intro e
    simp [filterIterationEdges, iterationEdgeKeep, List.mem_filter]

/-- Counterexample to claim C8 as stated: two stream-chunk engine events
with different `node_id` (and node type, execution id, start time) convert
to the same queue event, so the produced stream-chunk event carries none of
those fields. -/
theorem C8_counterexample :
    baseEventA.node_id ≠ baseEventB.node_id ∧
    handle_event (EngineNodeEvent.runStreamChunk baseEventA ("hello") none) =
      handle_event (EngineNodeEvent.runStreamChunk baseEventB ("hello") none) := by
  decide

/-- Claim C8 as amended: the started, succeeded, and failed node-scoped
queue events carry `node_execution_id`, `node_id`, `node_type`, `start_at`
and the parallel / iteration tags copied from the originating engine event;
the stream-chunk event carries only the text, selector, and
`in_iteration_id`, and the retriever-resources event only the resources and
`in_iteration_id`. -/
theorem C8_node_event_fields (base : BaseNodeEventData) (pred : Option String)
    (err chunk : String) (sel : Option (List String)) (res : Nat) (ctx : String) :
    (∃ qe, handle_event (EngineNodeEvent.runStarted base pred) =
        AppQueueEventM.nodeStarted qe ∧
      qe.node_execution_id = base.id ∧ qe.node_id = base.node_id ∧
      qe.node_type = base.node_type ∧ qe.start_at = base.route_node_state.start_at ∧
      qe.parallel_id = base.parallel_id ∧
      qe.parallel_start_node_id = base.parallel_start_node_id ∧
      qe.parent_parallel_id = base.parent_parallel_id ∧
      qe.parent_parallel_start_node_id = base.parent_parallel_start_node_id ∧
      qe.in_iteration_id = base.in_iteration_id) ∧
    (∃ qe, handle_event (EngineNodeEvent.runSucceeded base) =
        AppQueueEventM.nodeSucceeded qe ∧
      qe.node_execution_id = base.id ∧ qe.node_id = base.node_id ∧
      qe.node_type = base.node_type ∧ qe.start_at = base.route_node_state.start_at ∧
      qe.parallel_id = base.parallel_id ∧
      qe.parallel_start_node_id = base.parallel_start_node_id ∧
      qe.parent_parallel_id = base.parent_parallel_id ∧
      qe.parent_parallel_start_node_id = base.parent_parallel_start_node_id ∧
      qe.in_iteration_id = base.in_iteration_id) ∧
    (∃ qe, handle_event (EngineNodeEvent.runFailed base err) =
        AppQueueEventM.nodeFailed qe ∧
      qe.node_execution_id = base.id ∧ qe.node_id = base.node_id ∧
      qe.node_type = base.node_type ∧ qe.start_at = base.route_node_state.start_at ∧
      qe.parallel_id = base.parallel_id ∧
      qe.parallel_start_node_id = base.parallel_start_node_id ∧
      qe.parent_parallel_id = base.parent_parallel_id ∧
      qe.parent_parallel_start_node_id = base.parent_parallel_start_node_id ∧
      qe.in_iteration_id = base.in_iteration_id) ∧
    handle_event (EngineNodeEvent.runStreamChunk base chunk sel) =
      AppQueueEventM.textChunk
        { text := chunk, from_variable_selector := sel,
          in_iteration_id := base.in_iteration_id } ∧
    handle_event (EngineNodeEvent.runRetrieverResource base res ctx) =
      AppQueueEventM.retrieverResources
        { retriever_resources := res, in_iteration_id := base.in_iteration_id } :=
  ⟨⟨_, rfl, rfl, rfl, rfl, rfl, rfl, rfl, rfl, rfl, rfl⟩,
   ⟨_, rfl, rfl, rfl, rfl, rfl, rfl, rfl, rfl, rfl, rfl⟩,
   ⟨_, rfl, rfl, rfl, rfl, rfl, rfl, rfl, rfl, rfl, rfl⟩,
   rfl, rfl⟩

/-!  The listen loop: helper lemmas.  -/

theorem mqPublish_queue_eq (q : List (Option QEvent)) (e : QEvent) (pf : PublishFrom)
    (stopped : Bool) :
    (mqPublish q e pf stopped).queue =
      q ++ some e :: (if closesQueue e then [none] else []) := by
  cases hc : closesQueue e <;> simp [mqPublish, hc]

theorem producerPublish_eq : ∀ (es : List QEvent) (q : List (Option QEvent)),
    producerPublish q es = q ++ pubBlocks es
  | [], q => by simp [producerPublish, pubBlocks]
  | e :: es, q => by
    have ih := producerPublish_eq es (mqPublish q e PublishFrom.applicationManager false).queue
    simp only [producerPublish, List.foldl_cons] at ih ⊢
    rw [ih, mqPublish_queue_eq]
    simp [pubBlocks, List.append_assoc]

theorem pubBlocks_nonclosing : ∀ es : List QEvent,
    (∀ e ∈ es, closesQueue e = false) → pubBlocks es = es.map some
  | [], _ => rfl
  | e :: es, h => by
    have he := h e (List.mem_cons_self e es)
    have ih := pubBlocks_nonclosing es (fun x hx => h x (List.mem_cons_of_mem e hx))
    simp [pubBlocks, he, ih]

theorem listenFinally_queue_eq (t : Nat) (stopped : Bool) (st : ListenState) :
    (listenFinally t stopped st).queue =
      st.queue ++ finallyAppend t stopped st.elapsed st.lastPing := by
  cases stopped <;>
    by_cases h1 : t ≤ st.elapsed <;>
      by_cases h2 : st.lastPing < st.elapsed / 10 <;>
        simp [listenFinally, finallyAppend, h1, h2, mqPublish_queue_eq, closesQueue,
          List.append_assoc]

theorem queueWF_cons (x : Option QEvent) (rest : List (Option QEvent))
    (h : queueWF (x :: rest) = true) : queueWF rest = true := by
  cases x with
  | none => simpa [queueWF] using h
  | some e =>
    simp only [queueWF, Bool.and_eq_true] at h
    exact h.2

theorem queueWF_append : ∀ (q r : List (Option QEvent)),
    queueWF q = true → queueWF r = true → queueWF (q ++ r) = true
  | [], _, _, hr => hr
  | none :: q, r, hq, hr => by
    simp only [List.cons_append, queueWF]
    exact queueWF_append q r (by simpa [queueWF] using hq) hr
  | some e :: q, r, hq, hr => by
    simp only [queueWF, Bool.and_eq_true] at hq
    simp only [List.cons_append, queueWF, Bool.and_eq_true]
    refine ⟨?_, queueWF_append q r hq.2 hr⟩
    rcases hq with ⟨h1, _⟩
    cases hc : closesQueue e
    · simp [hc]
    · rw [hc] at h1
      simp only [Bool.not_true, Bool.false_or, decide_eq_true_eq] at h1
      cases q with
      | nil => simp at h1
      | cons a q2 =>
        simp only [List.head?_cons, Option.some.injEq] at h1
        simp [hc, h1]

theorem queueWF_block (e : QEvent) :
    queueWF (some e :: (if closesQueue e then [none] else [])) = true := by
  cases hc : closesQueue e <;> simp [queueWF, hc]

theorem pubBlocks_wf : ∀ es : List QEvent, queueWF (pubBlocks es) = true
  | [] => rfl
  | e :: es => by
    simp only [pubBlocks]
    exact queueWF_append _ _ (queueWF_block e) (pubBlocks_wf es)

theorem finallyAppend_wf (t : Nat) (stopped : Bool) (elapsed lastPing : Nat) :
    queueWF (finallyAppend t stopped elapsed lastPing) = true := by
  unfold finallyAppend
  refine queueWF_append _ _ ?_ ?_
  · split <;> decide
  · split <;> decide

theorem listenRun_head_none (t : Nat) (f : Nat → Bool) (i : Nat → List QEvent)
    (fuel step : Nat) (st : ListenState) (l : List (Option QEvent))
    (h : st.queue = none :: l) : listenRun t f i fuel step st = [] := by
  cases fuel with
  | zero => rfl
  | succ n =>
    simp only [listenRun]
    rw [producerPublish_eq, h]
    simp

/-- Safety half of claim C1: starting from any well-formed queue, the
sequence `listen` yields contains no event after a queue-closing event, and
hence at most one queue-closing event. -/
theorem listen_safety : ∀ (fuel t step : Nat) (f : Nat → Bool) (i : Nat → List QEvent)
    (st : ListenState), queueWF st.queue = true →
    eventsStopAfter closesQueue (listenRun t f i fuel step st) = true := by
  intro fuel
  induction fuel with
  | zero => intro t step f i st _; rfl
  | succ n ih =>
    intro t step f i st hwf
    have hwf1 : queueWF (producerPublish st.queue (i step)) = true := by
      rw [producerPublish_eq]
      exact queueWF_append _ _ hwf (pubBlocks_wf _)
    simp only [listenRun]
    rcases hQ : producerPublish st.queue (i step) with _ | ⟨x, rest⟩
    · apply ih
      rw [listenFinally_queue_eq]
      simpa using finallyAppend_wf t (f (st.elapsed + 1)) (st.elapsed + 1) st.lastPing
    · rw [hQ] at hwf1
      have hwfrest : queueWF rest = true := queueWF_cons _ _ hwf1
      cases x with
      | none => rfl
      | some e =>
        cases hc : closesQueue e
        · have htail := ih t (step + 1) f i
            (listenFinally t (f st.elapsed)
              { queue := rest, elapsed := st.elapsed, lastPing := st.lastPing })
            (by rw [listenFinally_queue_eq]
                exact queueWF_append _ _ hwfrest (finallyAppend_wf _ _ _ _))
          simpa [eventsStopAfter, hc] using htail
        · simp only [queueWF, hc, Bool.not_true, Bool.false_or, Bool.and_eq_true,
            decide_eq_true_eq] at hwf1
          rcases hwf1 with ⟨h1, _⟩
          cases rest with
          | nil => simp at h1
          | cons a rest2 =>
            simp only [List.head?_cons, Option.some.injEq] at h1
            subst h1
            have hnil := listenRun_head_none t f i n (step + 1)
              (listenFinally t (f st.elapsed)
                { queue := none :: rest2, elapsed := st.elapsed, lastPing := st.lastPing })
              (rest2 ++ finallyAppend t (f st.elapsed) st.elapsed st.lastPing)
              (by rw [listenFinally_queue_eq]; rfl)
            simp [eventsStopAfter, hc, hnil]

/-- Liveness helper: when the queue holds the mapped events `l1` followed
by the sentinel, `listen` yields exactly `l1`, whatever the producer and the
`finally` block append behind the sentinel later. -/
theorem listen_yields_upto_sentinel : ∀ (l1 : List QEvent) (tail : List (Option QEvent))
    (t fuel step : Nat) (f : Nat → Bool) (i : Nat → List QEvent) (st : ListenState),
    st.queue = l1.map some ++ none :: tail → l1.length ≤ fuel →
    listenRun t f i fuel step st = l1
  | [], tail, t, fuel, step, f, i, st, hq, _ =>
    listenRun_head_none t f i fuel step st tail (by simpa using hq)
  | a :: l1, tail, t, fuel, step, f, i, st, hq, hfuel => by
    cases fuel with
    | zero => simp at hfuel
    | succ n =>
      simp only [listenRun]
      rw [producerPublish_eq, hq]
      simp only [List.map_cons, List.cons_append, List.append_assoc]
      refine congrArg (a :: ·) ?_
      refine listen_yields_upto_sentinel l1
        (tail ++ pubBlocks (i step) ++
          finallyAppend t (f st.elapsed) st.elapsed st.lastPing)
        t n (step + 1) f i _ ?_ (Nat.le_of_succ_le_succ hfuel)
      rw [listenFinally_queue_eq]
      simp [List.append_assoc]

theorem listenRun_empty_step (t : Nat) (f : Nat → Bool) (i : Nat → List QEvent)
    (n step : Nat) (st : ListenState)
    (h : producerPublish st.queue (i step) = []) :
    listenRun t f i (n + 1) step st =
      listenRun t f i n (step + 1)
        (listenFinally t (f (st.elapsed + 1))
          { queue := [], elapsed := st.elapsed + 1, lastPing := st.lastPing }) := by
  simp only [listenRun]
  rw [h]

theorem listenRun_cons_step (t : Nat) (f : Nat → Bool) (i : Nat → List QEvent)
    (n step : Nat) (st : ListenState) (e : QEvent) (rest : List (Option QEvent))
    (h : producerPublish st.queue (i step) = some e :: rest) :
    listenRun t f i (n + 1) step st =
      e :: listenRun t f i n (step + 1)
        (listenFinally t (f st.elapsed)
          { queue := rest, elapsed := st.elapsed, lastPing := st.lastPing }) := by
  simp only [listenRun]
  rw [h]

/-- Counterexample to claim C1 as stated: the queue image of
`GraphRunSucceeded` (`QueueWorkflowSucceededEvent`) does not close the
queue under the message-based manager, so the consumer observes it followed
by further events (here the message-end event): an event of the claim's
terminal set is observed with events yielded after it. -/
theorem C1_counterexample :
    claimTerminal QEvent.workflowSucceeded = true ∧
    eventsStopAfter claimTerminal
      (listenRun 1000 (fun _ => false)
        (fun k => if k = 0 then [QEvent.workflowSucceeded, QEvent.messageEnd] else []) 4 0
        { queue := [], elapsed := 0, lastPing := 0 }) = false := by
  decide

/-- Claim C1 as amended: (1) from any well-formed queue, the sequence of
events the consumer observes contains at most one queue-closing terminal
event (`QueueStopEvent` / `QueueErrorEvent` / `QueueMessageEndEvent` /
`QueueAdvancedChatMessageEndEvent`), with no events after it; (2) when the
stop flag is set and the producer publishes only non-closing events, the
consumer observes those events followed by exactly one `QueueStopEvent`,
as the final event. -/
theorem C1_terminal_event_delivery :
    (∀ (t fuel step : Nat) (f : Nat → Bool) (i : Nat → List QEvent) (st : ListenState),
      queueWF st.queue = true →
      eventsStopAfter closesQueue (listenRun t f i fuel step st) = true) ∧
    (∀ (t : Nat) (evs : List QEvent), (∀ e ∈ evs, closesQueue e = false) →
      listenRun t (fun _ => true) (fun k => if k = 0 then evs else [])
          (evs.length + 2) 0 { queue := [], elapsed := 0, lastPing := 0 }
        = evs ++ [QEvent.stop StopBy.userManual]) := by
  constructor
  · intro t fuel step f i st h
    exact listen_safety fuel t step f i st h
  · intro t evs hne
    have hpb : pubBlocks evs = evs.map some := pubBlocks_nonclosing evs hne
    cases evs with
    | nil =>
      have h0 : producerPublish ([] : List (Option QEvent))
          ((fun k => if k = 0 then ([] : List QEvent) else []) 0) = [] := by
        simp [producerPublish]
      refine Eq.trans (listenRun_empty_step t (fun _ => true)
        (fun k => if k = 0 then ([] : List QEvent) else []) 1 0
        { queue := [], elapsed := 0, lastPing := 0 } h0) ?_
      refine listen_yields_upto_sentinel [QEvent.stop StopBy.userManual] [] t 1 1
        (fun _ => true) (fun k => if k = 0 then [] else []) _ ?_ (by decide)
      rw [listenFinally_queue_eq]
      simp [finallyAppend]
    | cons a rest =>
      have hstep : producerPublish ([] : List (Option QEvent))
          ((fun k => if k = 0 then a :: rest else []) 0) = some a :: rest.map some := by
        simp [producerPublish_eq, hpb]
      refine Eq.trans (listenRun_cons_step t (fun _ => true)
        (fun k => if k = 0 then a :: rest else []) (rest.length + 2) 0
        { queue := [], elapsed := 0, lastPing := 0 } a (rest.map some) hstep) ?_
      refine congrArg (a :: ·) ?_
      refine listen_yields_upto_sentinel (rest ++ [QEvent.stop StopBy.userManual]) []
        t (rest.length + 2) 1 (fun _ => true)
        (fun k => if k = 0 then a :: rest else []) _ ?_ (by simp)
      rw [listenFinally_queue_eq]
      simp [finallyAppend, List.map_append]

/-- Witness for claim C1: a concrete well-formed queue yields a trace with
nothing after a closing event, and with the stop flag set a single
non-closing event is followed by exactly one stop event. -/
theorem C1_witness :
    eventsStopAfter closesQueue
      (listenRun 5 (fun _ => false) (fun _ => []) 3 0
        { queue := [some (QEvent.other 7)], elapsed := 0, lastPing := 0 }) = true ∧
    listenRun 9 (fun _ => true) (fun k => if k = 0 then [QEvent.other 1] else []) 3 0
      { queue := [], elapsed := 0, lastPing := 0 }
      = [QEvent.other 1, QEvent.stop StopBy.userManual] := by
  refine ⟨C1_terminal_event_delivery.1 5 3 0 (fun _ => false) (fun _ => []) _ (by decide), ?_⟩
  have h := C1_terminal_event_delivery.2 9 [QEvent.other 1] (by decide)
  simpa using h

/-- Counterexample to claim C5 as stated: the stop event `listen`
synthesizes when the wall-clock budget is exhausted and the one it
synthesizes when the stop flag is set are the very same event, carrying the
same `stopped_by` reason (`USER_MANUAL`): the reason code does not
distinguish timeout from a manual stop. -/
theorem C5_counterexample :
    listenRun 0 (fun _ => false) (fun _ => []) 2 0
        { queue := [], elapsed := 0, lastPing := 0 }
      = [QEvent.stop StopBy.userManual] ∧
    listenRun 1000 (fun _ => true) (fun _ => []) 2 0
        { queue := [], elapsed := 0, lastPing := 0 }
      = [QEvent.stop StopBy.userManual] := by
  decide

/-- Claim C5 as amended: a timeout-triggered `finally` block (budget
reached, flag clear) and a flag-triggered one (flag set, budget not
reached) append the identical terminal stop event, sentinel included; in
particular the `stopped_by` reason is `USER_MANUAL` in both and does not
distinguish the two causes. -/
theorem C5_timeout_stop_same_as_manual (t : Nat) (st st2 : ListenState)
    (htimeout : t ≤ st.elapsed) (hping : st.elapsed / 10 ≤ st.lastPing)
    (hflag_only : st2.elapsed < t) (hping2 : st2.elapsed / 10 ≤ st2.lastPing) :
    (listenFinally t false st).queue =
      st.queue ++ [some (QEvent.stop StopBy.userManual), none] ∧
    (listenFinally t true st2).queue =
      st2.queue ++ [some (QEvent.stop StopBy.userManual), none] := by
  constructor
  · rw [listenFinally_queue_eq]
    simp [finallyAppend, htimeout, Nat.not_lt.mpr hping]
  · rw [listenFinally_queue_eq]
    simp [finallyAppend, Nat.not_lt.mpr hping2]

/-- Witness for claim C5 at concrete states: timeout reached at 5 seconds
with budget 3, and flag set at 0 seconds with budget 3. -/
theorem C5_witness :
    (listenFinally 3 false { queue := [], elapsed := 5, lastPing := 1 }).queue =
      [some (QEvent.stop StopBy.userManual), none] ∧
    (listenFinally 3 true { queue := [], elapsed := 0, lastPing := 0 }).queue =
      [some (QEvent.stop StopBy.userManual), none] := by
  have h := C5_timeout_stop_same_as_manual 3
    { queue := [], elapsed := 5, lastPing := 1 }
    { queue := [], elapsed := 0, lastPing := 0 }
    (by decide) (by decide) (by decide) (by decide)
  exact ⟨by simpa using h.1, by simpa using h.2⟩

end Dify
